import Mathlib

/-!
Shallow embedding of the zen-trainer session timing engine (src/app.js,
src/firebase-config.js).  JavaScript numbers that hold times and durations
are modelled as rationals; Date.now() values are milliseconds, durations in
routine fields are seconds, matching the /1000 conversions in the source.
The module-level mutable variables of app.js are gathered into one AppState
record; each control function and the per-frame update loop become pure
state-transformers.
-/

namespace ZenTrainer

/-- Phase keys 'in', 'holdIn', 'out', 'holdOut' from app.js. -/
inductive PhaseKey where
  | keyIn
  | keyHoldIn
  | keyOut
  | keyHoldOut
deriving DecidableEq, Repr

/-- A derived phase entry { name, key, duration } as built in runTraining. -/
structure Phase where
  name : String
  key : PhaseKey
  duration : ℚ
deriving DecidableEq, Repr

/-- A routine record from src/routines.js / custom-routine creation.
phaseLabelsHoldIn models routine.phaseLabels.holdIn, the only label the
code reads. -/
structure Routine where
  id : String
  name : String
  durationMinutes : ℚ
  inhale : ℚ
  holdIn : ℚ
  exhale : ℚ
  holdOut : ℚ
  phaseLabelsHoldIn : Option String
deriving DecidableEq, Repr

/-- A combo record from src/routines.js: ordered routine ids. -/
structure Combo where
  id : String
  name : String
  routines : List String
  transitionSound : Option String
deriving DecidableEq, Repr

/-- The four canonical phase entries built in runTraining (app.js:447-451)
before filtering. -/
def canonicalPhases (r : Routine) : List Phase :=
  [ { name := "BREATH IN", key := .keyIn, duration := r.inhale }
  , { name := r.phaseLabelsHoldIn.getD "HOLD", key := .keyHoldIn, duration := r.holdIn }
  , { name := "BREATH OUT", key := .keyOut, duration := r.exhale }
  , { name := "HOLD OUT", key := .keyHoldOut, duration := r.holdOut } ]

/-- The phase list used by the update loop: the canonical four filtered to
duration > 0 (app.js:452, .filter(p => p.duration > 0)). -/
def buildPhases (r : Routine) : List Phase :=
  (canonicalPhases r).filter (fun p => decide (0 < p.duration))

/-- Circular phase advancement (app.js:470):
currentPhase = (currentPhase + 1) % phases.length. -/
def advance (phasesLength : ℕ) (currentPhase : ℕ) : ℕ :=
  (currentPhase + 1) % phasesLength

/-- Progress percent computed in updateProgressBar (app.js:323):
Math.min((elapsedTotalTime / totalDurationSeconds) * 100, 100). -/
def updateProgressBarPercent (elapsedTotalTime totalDurationSeconds : ℚ) : ℚ :=
  min ((elapsedTotalTime / totalDurationSeconds) * 100) 100

/-- Progress percent rendered by the second (legacy, non-combo) runTraining
implementation (app.js:1031): (elapsedTotalTime / totalDurationSeconds) * 100
written straight into the bar width, with no clamp. -/
def legacyLoopPercent (elapsedTotalTime totalDurationSeconds : ℚ) : ℚ :=
  (elapsedTotalTime / totalDurationSeconds) * 100

/-- The history document built by saveTrainingHistory
(src/firebase-config.js:200-206); actualDurationSeconds is stored as
Math.floor of the value passed in. -/
structure HistoryData where
  routineName : String
  actualDurationSeconds : ℤ
  totalTargetSeconds : ℚ
  completed : Bool
  timestamp : ℚ
deriving DecidableEq, Repr

/-- Document construction in saveTrainingHistory (firebase-config.js:200-206):
actualDurationSeconds := Math.floor(actualDurationSeconds). -/
def mkHistoryData (routineName : String) (actualDurationSeconds totalTargetSeconds : ℚ)
    (completed : Bool) (now : ℚ) : HistoryData :=
  { routineName := routineName
  , actualDurationSeconds := ⌊actualDurationSeconds⌋
  , totalTargetSeconds := totalTargetSeconds
  , completed := completed
  , timestamp := now }

/-- The argument tuple passed to saveTrainingHistory by stopTraining
(app.js:557-561). -/
structure HistoryEntry where
  routineName : String
  actualDurationSeconds : ℚ
  totalTargetSeconds : ℚ
  completed : Bool
deriving DecidableEq, Repr

/-- The module-level mutable state of src/app.js (lines 20-35) plus the
scheduler facts needed for cancellation reasoning: frameScheduled models a
pending requestAnimationFrame callback (animationFrameId), intervalPending
a pending countdown setInterval, countdown the countdown counter, and
phases the phase list captured by the update-loop closure. -/
structure AppState where
  isTrainingRunning : Bool
  isPaused : Bool
  pausedTime : ℚ
  pauseStartTime : ℚ
  currentRoutine : Option Routine
  currentCombo : Option Combo
  comboRoutineIndex : ℤ
  comboStartTime : Option ℚ
  routineStartTime : ℚ
  totalDurationSeconds : ℚ
  startTime : ℚ
  currentPhase : ℕ
  phaseStartTime : ℚ
  phases : List Phase
  allAvailableRoutines : List Routine
  frameScheduled : Bool
  intervalPending : Bool
  countdown : ℕ
deriving DecidableEq, Repr

/-- The initial module state (app.js:20-35): nothing running, no session. -/
def idleState : AppState :=
  { isTrainingRunning := false
  , isPaused := false
  , pausedTime := 0
  , pauseStartTime := 0
  , currentRoutine := none
  , currentCombo := none
  , comboRoutineIndex := 0
  , comboStartTime := some 0
  , routineStartTime := 0
  , totalDurationSeconds := 0
  , startTime := 0
  , currentPhase := 0
  , phaseStartTime := 0
  , phases := []
  , allAvailableRoutines := []
  , frameScheduled := false
  , intervalPending := false
  , countdown := 0 }

/-- JavaScript truthiness of a number-or-null slot (null and 0 are falsy). -/
def jsTruthy : Option ℚ → Bool
  | none => false
  | some x => decide (x ≠ 0)

/-- Pause-adjustment used by the main update loop and stopTraining
(app.js:490, 539): isPaused ? pausedTime + (Date.now() - pauseStartTime)/1000
: pausedTime. -/
def currentPausedTime (s : AppState) (now : ℚ) : ℚ :=
  if s.isPaused then s.pausedTime + (now - s.pauseStartTime) / 1000 else s.pausedTime

/-- elapsedTotalTime of the main update loop (app.js:491-493): combo-relative
when a combo with a truthy comboStartTime is active, session-relative
otherwise; pause-adjusted in both arms. -/
def mainElapsedTotal (s : AppState) (now : ℚ) : ℚ :=
  if s.currentCombo.isSome && jsTruthy s.comboStartTime then
    (now - s.comboStartTime.getD 0) / 1000 - currentPausedTime s now
  else
    (now - s.startTime) / 1000 - currentPausedTime s now

/-- elapsedRoutineTime of the main update loop (app.js:494), pause-adjusted. -/
def mainElapsedRoutine (s : AppState) (now : ℚ) : ℚ :=
  (now - s.routineStartTime) / 1000 - currentPausedTime s now

/-- elapsedTotalTime of the update loop installed by startNextComboRoutine
(app.js:236): comboStartTime ? (Date.now() - comboStartTime)/1000 : 0 — a raw
wall-clock delta, with no paused-time subtraction. -/
def comboLoopElapsedTotal (s : AppState) (now : ℚ) : ℚ :=
  if jsTruthy s.comboStartTime then (now - s.comboStartTime.getD 0) / 1000 else 0

/-- elapsedRoutineTime of the update loop installed by startNextComboRoutine
(app.js:237): (Date.now() - routineStartTime)/1000 — a raw wall-clock delta,
with no paused-time subtraction. -/
def comboLoopElapsedRoutine (s : AppState) (now : ℚ) : ℚ :=
  (now - s.routineStartTime) / 1000

/-- timeSinceLastPhase (app.js:465): (Date.now() - phaseStartTime)/1000. -/
def timeSinceLastPhase (s : AppState) (now : ℚ) : ℚ :=
  (now - s.phaseStartTime) / 1000

/-- Placeholder for out-of-range indexing (unreachable while the phase-list
invariant holds). -/
def defaultPhase : Phase := { name := "", key := .keyIn, duration := 0 }

/-- phases[i] indexing of the update loops. -/
def phaseAt (ps : List Phase) (i : ℕ) : Phase := ps.getD i defaultPhase

/-- Outcome of one update-loop body evaluation: re-arm the next frame,
call startNextComboRoutine, or call stopTraining(true). -/
inductive TickOutcome where
  | cont
  | nextRoutine
  | complete
deriving DecidableEq, Repr

/-- The phase-advance step at the head of both update loops
(app.js:465-470): if timeSinceLastPhase >= phases[currentPhase].duration,
reset phaseStartTime to now and advance the index circularly. -/
def advancePhase (s : AppState) (now : ℚ) : AppState :=
  if timeSinceLastPhase s now ≥ (phaseAt s.phases s.currentPhase).duration then
    { s with phaseStartTime := now
           , currentPhase := advance s.phases.length s.currentPhase }
  else s

/-- One body evaluation of the main update loop in runTraining
(app.js:465-519), entered when isTrainingRunning and not isPaused: advance
the phase if due, then evaluate the completion checks.  The
remainingTimeInCurrentPhase comparison (app.js:502, 514) reuses the
timeSinceLastPhase value measured before the phase-advance step, against the
possibly-advanced currentPhase, exactly as the source does.  The none branch
of currentRoutine is unreachable while a session runs. -/
def tick (s : AppState) (now : ℚ) : AppState × TickOutcome :=
  match s.currentRoutine with
  | none => (s, .cont)
  | some r =>
    let s1 := advancePhase s now
    let routineDuration := r.durationMinutes * 60
    match s1.currentCombo with
    | some c =>
      if mainElapsedRoutine s1 now ≥ routineDuration then
        if (phaseAt s1.phases s1.currentPhase).duration - timeSinceLastPhase s now ≤ 0 then
          if s1.comboRoutineIndex < (c.routines.length : ℤ) - 1 then (s1, .nextRoutine)
          else (s1, .complete)
        else (s1, .cont)
      else (s1, .cont)
    | none =>
      if mainElapsedTotal s1 now ≥ s1.totalDurationSeconds then
        if (phaseAt s1.phases s1.currentPhase).duration - timeSinceLastPhase s now ≤ 0 then
          (s1, .complete)
        else (s1, .cont)
      else (s1, .cont)

/-- One body evaluation of the update loop installed by
startNextComboRoutine (app.js:204-258): same phase-advance step, but the
elapsed values are the raw deltas of app.js:236-237 and the completion check
(app.js:243-254) always runs against the current combo. -/
def comboTick (s : AppState) (now : ℚ) : AppState × TickOutcome :=
  match s.currentRoutine, s.currentCombo with
  | some r, some c =>
    let s1 := advancePhase s now
    if comboLoopElapsedRoutine s1 now ≥ r.durationMinutes * 60 then
      if (phaseAt s1.phases s1.currentPhase).duration - timeSinceLastPhase s now ≤ 0 then
        if s1.comboRoutineIndex < (c.routines.length : ℤ) - 1 then (s1, .nextRoutine)
        else (s1, .complete)
      else (s1, .cont)
    else (s1, .cont)
  | _, _ => (s, .cont)

/-- Routine lookup against allAvailableRoutines (app.js:427, .find by id). -/
def findRoutine (rs : List Routine) (rid : String) : Option Routine :=
  rs.find? (fun r => r.id == rid)

/-- runTraining initialisation (app.js:419-454, 524): record start times,
compute the total target (combo sum or single routine), build the phase
list, enter the first phase, and request the first animation frame. -/
def runTraining (s : AppState) (now : ℚ) : AppState :=
  match s.currentRoutine with
  | none => s
  | some r =>
    let total : ℚ :=
      match s.currentCombo with
      | some c =>
        c.routines.foldl (fun acc rid =>
          acc + (match findRoutine s.allAvailableRoutines rid with
                 | some rt => rt.durationMinutes * 60
                 | none => 0)) 0
      | none => r.durationMinutes * 60
    { s with startTime := now
           , routineStartTime := now
           , comboStartTime := match s.currentCombo with
                               | some _ => some now
                               | none => none
           , totalDurationSeconds := total
           , phases := buildPhases r
           , currentPhase := 0
           , phaseStartTime := now
           , frameScheduled := true }

/-- startCountdown (app.js:105-155): rejected while a session is active;
otherwise record the routine/combo, mark the session running, and start the
3-tick countdown interval. -/
def startCountdown (s : AppState) (routine : Routine) (combo : Option Combo) : AppState :=
  if s.isTrainingRunning then s
  else
    { s with currentRoutine := some routine
           , currentCombo := combo
           , comboRoutineIndex := match combo with
                                  | some _ => 0
                                  | none => -1
           , isTrainingRunning := true
           , countdown := 3
           , intervalPending := true }

/-- One firing of the countdown interval (app.js:145-154): decrement; when
the counter reaches 0, clear the interval and call runTraining.  The interval
body never consults isTrainingRunning. -/
def countdownTick (s : AppState) (now : ℚ) : AppState :=
  if s.intervalPending then
    let countdown := s.countdown - 1
    if countdown > 0 then { s with countdown := countdown }
    else runTraining { s with intervalPending := false, countdown := countdown } now
  else s

/-- What stopTraining computes as actualDurationSeconds (app.js:539-540):
the wall-clock session delta minus the pause adjustment. -/
def stopActualDuration (s : AppState) (now : ℚ) : ℚ :=
  (now - s.startTime) / 1000 - currentPausedTime s now

/-- stopTraining (app.js:530-604): clear the running flag, cancel the pending
animation frame, submit a history entry when currentRoutine is set and the
pause-adjusted duration exceeds 5 seconds, and reset the pause bookkeeping.
It does not touch the countdown interval (which is local to startCountdown),
does not check whether a session is active, and leaves currentRoutine,
currentCombo and startTime in place. -/
def stopTraining (s : AppState) (now : ℚ) (completed : Bool) : AppState × Option HistoryEntry :=
  let entry : Option HistoryEntry :=
    match s.currentRoutine with
    | none => none
    | some r =>
      if stopActualDuration s now > 5 then
        some { routineName := match s.currentCombo with
                              | some c => c.name
                              | none => r.name
             , actualDurationSeconds := stopActualDuration s now
             , totalTargetSeconds := match s.currentCombo with
                                     | some _ => s.totalDurationSeconds
                                     | none => r.durationMinutes * 60
             , completed := completed }
      else none
  ( { s with isTrainingRunning := false
           , frameScheduled := false
           , isPaused := false
           , pausedTime := 0
           , pauseStartTime := 0 }
  , entry )

/-- pauseTraining (app.js:668-686): no-op unless running and not paused;
otherwise record pauseStartTime and set isPaused. -/
def pauseTraining (s : AppState) (now : ℚ) : AppState :=
  if !s.isTrainingRunning || s.isPaused then s
  else { s with isPaused := true, pauseStartTime := now }

/-- resumeTraining (app.js:691-720): no-op unless running and paused;
otherwise accumulate the pause span into pausedTime and clear isPaused. -/
def resumeTraining (s : AppState) (now : ℚ) : AppState :=
  if !s.isTrainingRunning || !s.isPaused then s
  else { s with pausedTime := s.pausedTime + (now - s.pauseStartTime) / 1000
              , isPaused := false }

/-- One animation-frame callback of the main update loop (app.js:456-522):
a frame fires only if one is scheduled; the guard at app.js:457-463 returns
early (re-arming only while paused) when the session is not running, and the
loop otherwise runs the tick body, re-arming on cont and calling
stopTraining on complete.  On nextRoutine the state handed to
startNextComboRoutine is returned; its deferred work is modelled by
comboTick and the comboLoop elapsed definitions. -/
def frameTick (s : AppState) (now : ℚ) : AppState :=
  if s.frameScheduled then
    let s0 := { s with frameScheduled := false }
    if !s0.isTrainingRunning || s0.isPaused then
      if s0.isPaused then { s0 with frameScheduled := true } else s0
    else
      let r := tick s0 now
      match r.2 with
      | .cont => { r.1 with frameScheduled := true }
      | .complete => (stopTraining r.1 now true).1
      | .nextRoutine => r.1
  else s

/-- Run the main update loop over a list of frame times, stopping at the
first outcome other than cont and reporting it with its time. -/
def runTicks (s : AppState) : List ℚ → AppState × Option (ℚ × TickOutcome)
  | [] => (s, none)
  | t :: ts =>
    let r := tick s t
    match r.2 with
    | .cont => runTicks r.1 ts
    | o => (r.1, some (t, o))

/-- The LAH built-in routine (src/routines.js). -/
def lah : Routine :=
  { id := "lah", name := "LAH", durationMinutes := 6
  , inhale := 4, holdIn := 0, exhale := 6, holdOut := 0
  , phaseLabelsHoldIn := none }

/-- A 4-7-8 relaxation routine, the pattern named in the src/routines.js
header comment, with a 1-minute target as a custom routine allows. -/
def relax478 : Routine :=
  { id := "relax478", name := "4-7-8", durationMinutes := 1
  , inhale := 4, holdIn := 7, exhale := 8, holdOut := 0
  , phaseLabelsHoldIn := none }

/-- A two-member combo referencing built-in routines (src/routines.js shape). -/
def comboAB : Combo :=
  { id := "cb", name := "Morning Mix", routines := ["lah", "led"], transitionSound := none }

/-- A running single-routine session for LAH: the module state right after
runTraining has initialised a session started at t = 0 ms. -/
def c2Start : AppState :=
  { idleState with isTrainingRunning := true
                 , currentRoutine := some lah
                 , currentCombo := none
                 , comboStartTime := none
                 , startTime := 0
                 , routineStartTime := 0
                 , totalDurationSeconds := 360
                 , phases := buildPhases lah }

/-- A combo session in the update loop installed by startNextComboRoutine:
second routine started at t = 5000 ms, with 10 s of pause already
accumulated in pausedTime, currently running. -/
def c1State : AppState :=
  { idleState with isTrainingRunning := true
                 , currentRoutine := some lah
                 , currentCombo := some comboAB
                 , comboRoutineIndex := 1
                 , comboStartTime := some 5000
                 , startTime := 5000
                 , routineStartTime := 5000
                 , totalDurationSeconds := 540
                 , pausedTime := 10
                 , phases := buildPhases lah }

/-- Session state after the 3-second countdown for the 4-7-8 routine:
startCountdown at t ≈ 0, countdown ticks at 1000/2000/3000 ms, so
runTraining initialises the session at t = 3000 ms. -/
def c4s0 : AppState :=
  countdownTick (countdownTick (countdownTick
    (startCountdown idleState relax478 none) 1000) 2000) 3000

/-- Frame times for an uninterrupted 4-7-8 run: one frame at each phase
boundary after the session start at 3000 ms. -/
def c4Times : List ℚ :=
  [7000, 14000, 22000, 26000, 33000, 41000, 45000, 52000, 60000, 64000, 71000, 79000]

/-- The session state just before the final frame of the c4 run: the first
eleven frames all re-arm (outcome cont). -/
def c4Pre : AppState :=
  (runTicks c4s0 [7000, 14000, 22000, 26000, 33000, 41000, 45000, 52000, 60000, 64000, 71000]).1

/-- State right after stopTraining is called 1000 ms into the countdown. -/
def c3s2 : AppState :=
  (stopTraining (startCountdown idleState relax478 none) 1000 false).1

/-- State after the already-stopped session's countdown interval fires its
three ticks anyway (stopTraining could not cancel it): the third tick calls
runTraining at t = 4000 ms. -/
def c3s5 : AppState :=
  countdownTick (countdownTick (countdownTick c3s2 2000) 3000) 4000

/-- State after the first animation frame of the stale update loop. -/
def c3s6 : AppState := frameTick c3s5 4016

/-- Claim C1: every elapsed-time value the tick computes subtracts
effectivePaused(now) from the raw wall-clock delta.  The code violates
this: the update loop installed by startNextComboRoutine (app.js:236-237)
computes raw deltas.  At a combo session with 10 s of accumulated pause,
30 s after the second routine started, that loop reports 30 s elapsed for
both the routine and the combo, while the pause-adjusted value — which the
initial-routine loop (app.js:490-494) does compute — is 20 s. -/
theorem comboLoop_omits_pause_subtraction :
    comboLoopElapsedRoutine c1State 35000 = 30 ∧
    comboLoopElapsedTotal c1State 35000 = 30 ∧
    mainElapsedRoutine c1State 35000 = 20 ∧
    comboLoopElapsedRoutine c1State 35000 ≠
      (35000 - c1State.routineStartTime) / 1000 - currentPausedTime c1State 35000 := by
  norm_num [comboLoopElapsedRoutine, comboLoopElapsedTotal, mainElapsedRoutine,
    currentPausedTime, jsTruthy, c1State, idleState]

/-- Claim C2 (counterexample): calling stop twice on the same session is
claimed to submit exactly one History Entry.  On a session stopped 10 s in
and stopped again 10 s later, both stopTraining calls submit an entry:
stopTraining never checks whether a session is active and leaves
currentRoutine and startTime in place. -/
theorem stop_twice_double_submission :
    ((stopTraining c2Start 10000 false).2).isSome = true ∧
    ((stopTraining (stopTraining c2Start 10000 false).1 20000 false).2).isSome = true := by
  constructor <;>
    norm_num [stopTraining, stopActualDuration, currentPausedTime, c2Start, idleState, lah]

/-- Claim C2 (amended): calling stop twice in succession is not idempotent.
The first stopTraining call resets only the pause bookkeeping, not
currentRoutine or startTime, and the second call repeats the submission
logic, so whenever the pause-adjusted elapsed time exceeds 5 s at the first
call and the raw elapsed time exceeds 5 s at the second, both calls submit
a History Entry. -/
theorem stopTraining_not_idempotent
    (s : AppState) (now1 now2 : ℚ) (r : Routine)
    (hr : s.currentRoutine = some r)
    (h1 : stopActualDuration s now1 > 5)
    (h2 : (now2 - s.startTime) / 1000 > 5) :
    ((stopTraining s now1 false).2).isSome = true ∧
    ((stopTraining (stopTraining s now1 false).1 now2 false).2).isSome = true := by
  constructor
  · simp only [stopTraining, hr]
    rw [if_pos h1]
    rfl
  · set s1 := (stopTraining s now1 false).1 with hs1
    have hr2 : s1.currentRoutine = some r := hr
    have hact : stopActualDuration s1 now2 = (now2 - s.startTime) / 1000 := by
      rw [hs1]
      simp [stopTraining, stopActualDuration, currentPausedTime]
    simp only [stopTraining, hr2, hact]
    rw [if_pos h2]
    rfl

/-- Witness for stopTraining_not_idempotent at the concrete LAH session. -/
theorem stopTraining_not_idempotent_witness :
    ((stopTraining c2Start 10000 false).2).isSome = true ∧
    ((stopTraining (stopTraining c2Start 10000 false).1 20000 false).2).isSome = true :=
  stopTraining_not_idempotent c2Start 10000 20000 lah rfl
    (by norm_num [stopActualDuration, currentPausedTime, c2Start, idleState])
    (by norm_num [c2Start, idleState])

/-- Claim C5: on stop, a History Entry is submitted if and only if the
pause-adjusted actualDurationSeconds exceeds 5 (app.js:536-575). -/
theorem stop_submits_iff_actual_gt_5
    (s : AppState) (now : ℚ) (completed : Bool) (r : Routine)
    (hr : s.currentRoutine = some r) :
    ((stopTraining s now completed).2).isSome = true ↔ stopActualDuration s now > 5 := by
  simp only [stopTraining, hr]
  split
  · rename_i h
    simpa using h
  · rename_i h
    simpa using h

/-- Witness for stop_submits_iff_actual_gt_5: a session stopped 3 s in
submits nothing. -/
theorem stop_submits_iff_witness :
    ¬ ((stopTraining c2Start 3000 false).2).isSome = true :=
  fun h => absurd ((stop_submits_iff_actual_gt_5 c2Start 3000 false lah rfl).mp h)
    (by norm_num [stopActualDuration, currentPausedTime, c2Start, idleState])

/-- runTraining never touches isTrainingRunning (it was set by
startCountdown). -/
lemma runTraining_isTrainingRunning (s : AppState) (now : ℚ) :
    (runTraining s now).isTrainingRunning = s.isTrainingRunning := by
  unfold runTraining
  cases s.currentRoutine <;> rfl

/-- A countdown-interval firing never touches isTrainingRunning, even when
it ends the countdown and calls runTraining. -/
lemma countdownTick_isTrainingRunning (s : AppState) (now : ℚ) :
    (countdownTick s now).isTrainingRunning = s.isTrainingRunning := by
  unfold countdownTick
  split
  · dsimp only
    split
    · rfl
    · rw [runTraining_isTrainingRunning]
  · rfl

/-- Claim C3 (counterexample): stop is claimed to cancel every pending
scheduled re-entry, including the countdown interval.  It does not: the
interval handle is local to startCountdown, so after stopTraining is called
1000 ms into the countdown the interval is still pending, and when its
third firing ends the countdown it still calls runTraining, which schedules
a fresh animation frame for the stopped session. -/
theorem stop_does_not_cancel_countdown_interval :
    c3s2.intervalPending = true ∧
    c3s2.isTrainingRunning = false ∧
    c3s5.frameScheduled = true := by
  exact ⟨rfl, rfl, rfl⟩

/-- Claim C3 (amended): stopTraining cancels the pending animation frame but
cannot cancel the countdown interval, which keeps firing and re-enters
runTraining; nevertheless the stopped session is never resurrected, because
no scheduled callback ever sets isTrainingRunning, and the stale update
loop's first frame exits without re-arming since the running flag is down.
In the concrete stop-during-countdown trace the state after the stale
frame is idle: not running, no frame scheduled, no interval pending. -/
theorem stale_callbacks_cannot_resurrect :
    (∀ (s : AppState) (now : ℚ), s.isTrainingRunning = false →
        (frameTick s now).isTrainingRunning = false ∧
        (s.isPaused = false → (frameTick s now).frameScheduled = false)) ∧
    (∀ (s : AppState) (now : ℚ),
        (countdownTick s now).isTrainingRunning = s.isTrainingRunning) ∧
    (c3s6.isTrainingRunning = false ∧ c3s6.frameScheduled = false ∧
       c3s6.intervalPending = false) := by
  refine ⟨?_, countdownTick_isTrainingRunning, rfl, rfl, rfl⟩
  intro s now h
  cases hf : s.frameScheduled <;> cases hp : s.isPaused <;>
    simp [frameTick, h, hf, hp]

/-- Witness for stale_callbacks_cannot_resurrect: the stale frame fired at
4016 ms leaves the session stopped with no frame scheduled. -/
theorem stale_callbacks_witness :
    (frameTick c3s5 4016).isTrainingRunning = false ∧
    (frameTick c3s5 4016).frameScheduled = false :=
  ⟨(stale_callbacks_cannot_resurrect.1 c3s5 4016 rfl).1,
   (stale_callbacks_cannot_resurrect.1 c3s5 4016 rfl).2 rfl⟩

/-- The phase-advance step never touches the combo bookkeeping. -/
lemma advancePhase_currentCombo (s : AppState) (now : ℚ) :
    (advancePhase s now).currentCombo = s.currentCombo := by
  unfold advancePhase
  split <;> rfl

/-- Claim C4 (counterexample): completion is claimed to overshoot the
nominal target by at most one phase's duration.  Running the 4-7-8 routine
(phases 4 s, 7 s, 8 s; 60 s target) uninterrupted with a frame at every
phase boundary, the session completes only at 79000 ms — 76 s elapsed, an
overshoot of 16 s, although every phase lasts at most 8 s.  The cause: the
remaining-time check (app.js:502, 514) subtracts the time spent in the
phase just exited from the duration of the phase just entered, so the tick
defers completion across every boundary into a longer phase. -/
theorem completion_overshoot_exceeds_one_phase :
    (runTicks c4s0 c4Times).2 = some (79000, TickOutcome.complete) ∧
    c4s0.totalDurationSeconds = 60 ∧
    (c4s0.phases.all fun p => decide (p.duration ≤ 8)) = true ∧
    stopActualDuration (runTicks c4s0 c4Times).1 79000 - c4s0.totalDurationSeconds > 8 := by
  norm_num [runTicks, tick, advancePhase, timeSinceLastPhase, phaseAt, c4s0, c4Times,
    countdownTick, startCountdown, runTraining, idleState, relax478, buildPhases,
    canonicalPhases, advance, defaultPhase, mainElapsedTotal, mainElapsedRoutine,
    currentPausedTime, stopActualDuration, jsTruthy, List.getD, List.filter]

/-- Claim C4 (amended): in every update-loop body — the main loop's combo
branch, its single-routine branch, and the loop installed after a
combo-advance — a non-cont outcome (completion or combo-advance) occurs only
when the relevant elapsed time has reached the routine's nominal target and
the code's remainingTimeInCurrentPhase is ≤ 0; but because that remaining
time is the entered phase's duration minus the time measured in the exited
phase, the elapsed time at completion can exceed the nominal target by more
than one phase's duration (completion_overshoot_exceeds_one_phase). -/
theorem tick_completion_requires_phase_boundary
    (s : AppState) (now : ℚ) (r : Routine) (hr : s.currentRoutine = some r) :
    (∀ c : Combo, s.currentCombo = some c →
       (tick s now).2 ≠ TickOutcome.cont →
       mainElapsedRoutine (advancePhase s now) now ≥ r.durationMinutes * 60 ∧
       (phaseAt (advancePhase s now).phases (advancePhase s now).currentPhase).duration -
         timeSinceLastPhase s now ≤ 0) ∧
    (s.currentCombo = none →
       (tick s now).2 ≠ TickOutcome.cont →
       mainElapsedTotal (advancePhase s now) now ≥ (advancePhase s now).totalDurationSeconds ∧
       (phaseAt (advancePhase s now).phases (advancePhase s now).currentPhase).duration -
         timeSinceLastPhase s now ≤ 0) ∧
    ((comboTick s now).2 ≠ TickOutcome.cont →
       comboLoopElapsedRoutine (advancePhase s now) now ≥ r.durationMinutes * 60 ∧
       (phaseAt (advancePhase s now).phases (advancePhase s now).currentPhase).duration -
         timeSinceLastPhase s now ≤ 0) := by
  refine ⟨?_, ?_, ?_⟩
  · intro c hc h
    simp only [tick, hr, advancePhase_currentCombo, hc] at h
    split at h
    · split at h
      · exact ⟨‹_›, ‹_›⟩
      · exact absurd rfl h
    · exact absurd rfl h
  · intro hc h
    simp only [tick, hr, advancePhase_currentCombo, hc] at h
    split at h
    · split at h
      · exact ⟨‹_›, ‹_›⟩
      · exact absurd rfl h
    · exact absurd rfl h
  · intro h
    cases hc : s.currentCombo with
    | none =>
      simp only [comboTick, hr, hc] at h
      exact absurd rfl h
    | some c =>
      simp only [comboTick, hr, hc] at h
      split at h
      · split at h
        · exact ⟨‹_›, ‹_›⟩
        · exact absurd rfl h
      · exact absurd rfl h

/-- Witness for tick_completion_requires_phase_boundary at the final frame
of the 4-7-8 run. -/
theorem tick_completion_witness :
    mainElapsedTotal (advancePhase c4Pre 79000) 79000 ≥
      (advancePhase c4Pre 79000).totalDurationSeconds ∧
    (phaseAt (advancePhase c4Pre 79000).phases (advancePhase c4Pre 79000).currentPhase).duration -
      timeSinceLastPhase c4Pre 79000 ≤ 0 :=
  (tick_completion_requires_phase_boundary c4Pre 79000 relax478
      (by norm_num [c4Pre, runTicks, tick, advancePhase, timeSinceLastPhase, phaseAt, c4s0,
        countdownTick, startCountdown, runTraining, idleState, relax478, buildPhases,
        canonicalPhases, advance, defaultPhase, mainElapsedTotal, mainElapsedRoutine,
        currentPausedTime, jsTruthy, List.getD, List.filter])).2.1
    (by norm_num [c4Pre, runTicks, tick, advancePhase, timeSinceLastPhase, phaseAt, c4s0,
        countdownTick, startCountdown, runTraining, idleState, relax478, buildPhases,
        canonicalPhases, advance, defaultPhase, mainElapsedTotal, mainElapsedRoutine,
        currentPausedTime, jsTruthy, List.getD, List.filter])
    (by
      norm_num [c4Pre, runTicks, tick, advancePhase, timeSinceLastPhase, phaseAt, c4s0,
        countdownTick, startCountdown, runTraining, idleState, relax478, buildPhases,
        canonicalPhases, advance, defaultPhase, mainElapsedTotal, mainElapsedRoutine,
        currentPausedTime, jsTruthy, List.getD, List.filter]
      decide)

/-- Claim C6: for every routine with at least one positive phase duration,
the phase list built at training start is exactly the canonical four-phase
list (fixed order in, holdIn, out, holdOut) filtered to duration > 0, hence
has length between 1 and 4 and contains no phase of non-positive
duration. -/
theorem buildPhases_spec
    (r : Routine)
    (h : 0 < r.inhale ∨ 0 < r.holdIn ∨ 0 < r.exhale ∨ 0 < r.holdOut) :
    buildPhases r = (canonicalPhases r).filter (fun p => decide (0 < p.duration)) ∧
    1 ≤ (buildPhases r).length ∧ (buildPhases r).length ≤ 4 ∧
    ∀ p ∈ buildPhases r, 0 < p.duration := by
  refine ⟨rfl, ?_, List.length_filter_le _ _, ?_⟩
  · rcases h with h | h | h | h
    · have hm : Phase.mk "BREATH IN" PhaseKey.keyIn r.inhale ∈ buildPhases r :=
        List.mem_filter.mpr ⟨by simp [canonicalPhases], by simpa using h⟩
      exact List.length_pos_of_mem hm
    · have hm : Phase.mk (r.phaseLabelsHoldIn.getD "HOLD") PhaseKey.keyHoldIn r.holdIn ∈
          buildPhases r :=
        List.mem_filter.mpr ⟨by simp [canonicalPhases], by simpa using h⟩
      exact List.length_pos_of_mem hm
    · have hm : Phase.mk "BREATH OUT" PhaseKey.keyOut r.exhale ∈ buildPhases r :=
        List.mem_filter.mpr ⟨by simp [canonicalPhases], by simpa using h⟩
      exact List.length_pos_of_mem hm
    · have hm : Phase.mk "HOLD OUT" PhaseKey.keyHoldOut r.holdOut ∈ buildPhases r :=
        List.mem_filter.mpr ⟨by simp [canonicalPhases], by simpa using h⟩
      exact List.length_pos_of_mem hm
  · intro p hp
    simpa using (List.mem_filter.mp hp).2

/-- Witness for buildPhases_spec at the LAH routine (inhale 4, exhale 6). -/
theorem buildPhases_spec_witness :
    1 ≤ (buildPhases lah).length ∧ (buildPhases lah).length ≤ 4 :=
  ⟨(buildPhases_spec lah (Or.inl (by norm_num [lah]))).2.1,
   (buildPhases_spec lah (Or.inl (by norm_num [lah]))).2.2.1⟩

/-- Claim C7 (counterexample): the claim says the 5th advance returns a
4-phase routine's index from 0 back to 0; in fact five advances of
(i+1) mod 4 land on index 1. -/
theorem fifth_advance_returns_one :
    (advance 4)^[5] 0 = 1 ∧ (advance 4)^[5] 0 ≠ 0 := by
  decide

/-- Claim C7 (amended): phase advancement is exactly circular — each advance
sets the index to (index+1) mod length, so for a 4-phase routine the 4th
advance (not the 5th) returns the index to 0, and any index below 4 is
restored after 4 advances; there is no terminal phase index. -/
theorem advance_cycles_after_four :
    (∀ i : ℕ, advance 4 i = (i + 1) % 4) ∧
    (∀ i : ℕ, i < 4 → (advance 4)^[4] i = i) ∧
    (advance 4)^[4] 0 = 0 := by
  refine ⟨fun i => rfl, by decide, by decide⟩

/-- Witness for advance_cycles_after_four at index 2. -/
theorem advance_cycles_witness : (advance 4)^[4] 2 = 2 :=
  advance_cycles_after_four.2.1 2 (by decide)

/-- Claim C8 (counterexample): the claim says every tick-loop implementation
renders a clamped progress percent; the second (legacy) implementation
(app.js:1031) writes the raw ratio, which reaches 200 percent when elapsed
is twice the target. -/
theorem legacy_percent_unclamped :
    legacyLoopPercent 120 60 = 200 ∧ ¬ legacyLoopPercent 120 60 ≤ 100 := by
  constructor <;> norm_num [legacyLoopPercent]

/-- Claim C8 (amended): the combo-capable implementation's updateProgressBar
clamps the displayed percent to min(100, 100*elapsed/target), never
exceeding 100 even when elapsed exceeds target; the legacy tick loop
(app.js:1031) renders the unclamped ratio instead. -/
theorem updateProgressBar_percent_clamped
    (elapsed target : ℚ) (_ht : 0 < target) :
    updateProgressBarPercent elapsed target = min 100 (100 * elapsed / target) ∧
    updateProgressBarPercent elapsed target ≤ 100 := by
  constructor
  · unfold updateProgressBarPercent
    rw [min_comm]
    congr 1
    ring
  · exact min_le_right _ _

/-- Witness for updateProgressBar_percent_clamped at elapsed 120 of 60. -/
theorem updateProgressBar_clamped_witness : updateProgressBarPercent 120 60 ≤ 100 :=
  (updateProgressBar_percent_clamped 120 60 (by norm_num)).2

/-- Claim C9: invalid control calls are silent no-ops — pauseTraining when
not running or already paused, resumeTraining when not running or not
paused, and startCountdown while a session is active all return the state
unchanged. -/
theorem invalid_controls_are_noops
    (s : AppState) (now : ℚ) (r : Routine) (combo : Option Combo) :
    (s.isTrainingRunning = false ∨ s.isPaused = true → pauseTraining s now = s) ∧
    (s.isTrainingRunning = false ∨ s.isPaused = false → resumeTraining s now = s) ∧
    (s.isTrainingRunning = true → startCountdown s r combo = s) := by
  refine ⟨?_, ?_, ?_⟩
  · rintro (h | h) <;> simp [pauseTraining, h]
  · rintro (h | h) <;> simp [resumeTraining, h]
  · intro h
    simp [startCountdown, h]

/-- Witness for invalid_controls_are_noops: pause and resume on the idle
state, and start on a running session, all leave the state unchanged. -/
theorem invalid_controls_witness :
    pauseTraining idleState 7 = idleState ∧
    resumeTraining idleState 7 = idleState ∧
    startCountdown c2Start lah none = c2Start :=
  ⟨(invalid_controls_are_noops idleState 7 lah none).1 (Or.inl rfl),
   (invalid_controls_are_noops idleState 7 lah none).2.1 (Or.inl rfl),
   (invalid_controls_are_noops c2Start 7 lah none).2.2 rfl⟩

/-- Claim C10: every history document submitted to persistence stores
actualDurationSeconds as the floor of the value passed in
(firebase-config.js:202, Math.floor), so the persisted duration is an
integer no greater than the computed value and within one of it. -/
theorem saveTrainingHistory_floors_duration
    (n : String) (x t : ℚ) (c : Bool) (ts : ℚ) :
    (mkHistoryData n x t c ts).actualDurationSeconds = ⌊x⌋ ∧
    ((mkHistoryData n x t c ts).actualDurationSeconds : ℚ) ≤ x ∧
    x < ((mkHistoryData n x t c ts).actualDurationSeconds : ℚ) + 1 := by
  refine ⟨rfl, ?_, ?_⟩
  · exact Int.floor_le x
  · exact Int.lt_floor_add_one x

end ZenTrainer
